import Mathlib

/-!
Shallow embedding of the arbitrage detection and position-sizing core of the
mispriced-probabilities repository (src/arbitrage.py) and its risk manager
(src/risk_manager.py).  Prices, liquidity and bankroll are modelled as exact
rationals; optional Python arguments and dictionary lookups with defaults are
modelled with `Option` and `Option.getD`.  The creation timestamp of an
opportunity (datetime.now) plays no role in any decision and is omitted.
-/

/-- Mirrors the Python enum `ArbitrageType` in src/arbitrage.py. -/
inductive ArbitrageType where
  | SINGLE_CONDITION_LONG
  | SINGLE_CONDITION_SHORT
  | MULTI_OUTCOME_LONG
  | MULTI_OUTCOME_SHORT
  | CROSS_MARKET
  | EV_EDGE
deriving DecidableEq, Repr

/-- Mirrors the Python enum `RiskLevel` in src/arbitrage.py. -/
inductive RiskLevel where
  | RISK_FREE
  | LOW_RISK
  | MEDIUM_RISK
  | HIGH_RISK
deriving DecidableEq, Repr

/-- One element of the `outcomes` list passed to `check_multi_outcome`:
a Python dict with keys name, yes_bid, yes_ask, liquidity, all of which the
code reads through `.get` with a default, hence every field is optional. -/
structure Outcome where
  name : Option String := none
  yes_bid : Option ℚ := none
  yes_ask : Option ℚ := none
  liquidity : Option ℚ := none
deriving DecidableEq, Repr

/-- The `details` dictionary attached to an `ArbitrageOpportunity`,
restricted to the keys the source ever writes or reads. -/
structure Details where
  yes_bid : Option ℚ := none
  yes_ask : Option ℚ := none
  no_bid : Option ℚ := none
  no_ask : Option ℚ := none
  buy_cost : Option ℚ := none
  sell_value : Option ℚ := none
  liquidity : Option ℚ := none
  outcomes : List Outcome := []
  yes_ask_sum : Option ℚ := none
  yes_bid_sum : Option ℚ := none
  num_outcomes : Option Nat := none
  min_liquidity : Option ℚ := none
  action : Option String := none
deriving DecidableEq, Repr

/-- Mirrors the dataclass `ArbitrageOpportunity` in src/arbitrage.py. -/
structure ArbitrageOpportunity where
  arb_type : ArbitrageType
  market_id : String
  market_title : String
  profit_per_dollar : ℚ
  max_profit : ℚ
  confidence : ℚ
  risk_level : RiskLevel
  details : Details
  platform : String := "kalshi"
  spread_cost : ℚ := 0
  net_profit : ℚ := 0
deriving DecidableEq, Repr

/-- `ArbitrageOpportunity.__post_init__`: the dataclass recomputes
`net_profit = max(0, profit_per_dollar - spread_cost)` on construction,
overwriting whatever `net_profit` value was passed in. -/
def post_init (o : ArbitrageOpportunity) : ArbitrageOpportunity :=
  { o with net_profit := max 0 (o.profit_per_dollar - o.spread_cost) }

/-- `ArbitrageOpportunity.is_risk_free` property. -/
def ArbitrageOpportunity.is_risk_free (o : ArbitrageOpportunity) : Bool :=
  o.risk_level = RiskLevel.RISK_FREE

/-- Mirrors the constructor arguments of the Python class
`ArbitrageDetector` (min_profit_threshold, min_net_profit, platform). -/
structure ArbitrageDetector where
  min_profit_threshold : ℚ := 1 / 50
  min_net_profit : ℚ := 1 / 200
  platform : String := "kalshi"
deriving DecidableEq, Repr

/-- The detector built with all constructor defaults
(min_profit_threshold=0.02, min_net_profit=0.005, platform="kalshi"). -/
def default_detector : ArbitrageDetector := {}

namespace ArbitrageDetector

/-- `ArbitrageDetector._calculate_spread_cost`: half the combined quoted
spread, `((yes_ask - yes_bid) + (no_ask - no_bid)) / 2`. -/
def calculate_spread_cost (yes_bid yes_ask no_bid no_ask : ℚ) : ℚ :=
  ((yes_ask - yes_bid) + (no_ask - no_bid)) / 2

/-- `ArbitrageDetector.check_single_condition`.  Missing ask prices default
to the corresponding bid.  Checks the LONG rule (buy both at ask) first;
a LONG candidate that fails the min_net_profit floor returns none without
falling through to the SHORT rule, exactly as the early `return None` in
the source does. -/
def check_single_condition (d : ArbitrageDetector)
    (market_id market_title : String)
    (yes_bid no_bid : ℚ) (yes_ask_opt no_ask_opt : Option ℚ)
    (liquidity : ℚ) : Option ArbitrageOpportunity :=
  let yes_ask := yes_ask_opt.getD yes_bid
  let no_ask := no_ask_opt.getD no_bid
  let buy_cost := yes_ask + no_ask
  let sell_value := yes_bid + no_bid
  let spread_cost := calculate_spread_cost yes_bid yes_ask no_bid no_ask
  if buy_cost < 1 - d.min_profit_threshold then
    let gross_profit := 1 - buy_cost
    if gross_profit < d.min_net_profit then none
    else
      some (post_init
        { arb_type := ArbitrageType.SINGLE_CONDITION_LONG
          market_id := market_id
          market_title := market_title
          profit_per_dollar := gross_profit
          max_profit := if liquidity > 0 then gross_profit * liquidity
                        else gross_profit * 100
          confidence := min 1 (gross_profit / (1 / 10))
          risk_level := RiskLevel.RISK_FREE
          details := { yes_bid := some yes_bid, yes_ask := some yes_ask
                       no_bid := some no_bid, no_ask := some no_ask
                       buy_cost := some buy_cost
                       liquidity := some liquidity
                       action := some "BUY YES @ ask + BUY NO @ ask" }
          platform := d.platform
          spread_cost := spread_cost
          net_profit := 0 })
  else if sell_value > 1 + d.min_profit_threshold then
    let gross_profit := sell_value - 1
    if gross_profit < d.min_net_profit then none
    else
      some (post_init
        { arb_type := ArbitrageType.SINGLE_CONDITION_SHORT
          market_id := market_id
          market_title := market_title
          profit_per_dollar := gross_profit
          max_profit := if liquidity > 0 then gross_profit * liquidity
                        else gross_profit * 100
          confidence := min 1 (gross_profit / (1 / 10))
          risk_level := RiskLevel.RISK_FREE
          details := { yes_bid := some yes_bid, yes_ask := some yes_ask
                       no_bid := some no_bid, no_ask := some no_ask
                       sell_value := some sell_value
                       liquidity := some liquidity
                       action := some "SELL YES @ bid + SELL NO @ bid" }
          platform := d.platform
          spread_cost := spread_cost
          net_profit := 0 })
  else none

end ArbitrageDetector

/-- Python `min(iterable, default=dflt)`: the minimum of the list, or the
default when the list is empty. -/
def list_min (l : List ℚ) (dflt : ℚ) : ℚ :=
  match l with
  | [] => dflt
  | x :: xs => xs.foldl min x

/-- The bid-threshold filter of `check_multi_outcome`:
keep outcomes with `o.get("yes_bid", 0) >= min_probability_threshold`. -/
def relevant_filter (min_probability_threshold : ℚ) (outcomes : List Outcome) :
    List Outcome :=
  outcomes.filter (fun o => decide (min_probability_threshold ≤ o.yes_bid.getD 0))

namespace ArbitrageDetector

/-- `ArbitrageDetector.check_multi_outcome`. -/
def check_multi_outcome (d : ArbitrageDetector)
    (market_id market_title : String)
    (outcomes : List Outcome) (min_probability_threshold : ℚ) :
    Option ArbitrageOpportunity :=
  if outcomes.length < 2 then none
  else
    let relevant_outcomes := relevant_filter min_probability_threshold outcomes
    if relevant_outcomes.length < 2 then none
    else
      let yes_ask_sum :=
        (relevant_outcomes.map (fun o => o.yes_ask.getD (o.yes_bid.getD 0))).sum
      let yes_bid_sum := (relevant_outcomes.map (fun o => o.yes_bid.getD 0)).sum
      let min_liquidity :=
        list_min (relevant_outcomes.map (fun o => o.liquidity.getD 0)) 0
      let spread_cost := (yes_ask_sum - yes_bid_sum) / 2
      if yes_ask_sum < 1 - d.min_profit_threshold then
        let gross_profit := 1 - yes_ask_sum
        if gross_profit < d.min_net_profit then none
        else
          some (post_init
            { arb_type := ArbitrageType.MULTI_OUTCOME_LONG
              market_id := market_id
              market_title := market_title
              profit_per_dollar := gross_profit
              max_profit := if min_liquidity > 0 then gross_profit * min_liquidity
                            else gross_profit * 100
              confidence := min 1 (gross_profit / (1 / 10))
              risk_level := RiskLevel.RISK_FREE
              details := { outcomes := relevant_outcomes
                           yes_ask_sum := some yes_ask_sum
                           yes_bid_sum := some yes_bid_sum
                           num_outcomes := some relevant_outcomes.length
                           action := some "BUY YES on ALL outcomes @ ask"
                           min_liquidity := some min_liquidity }
              platform := d.platform
              spread_cost := spread_cost
              net_profit := 0 })
      else if yes_bid_sum > 1 + d.min_profit_threshold then
        let gross_profit := yes_bid_sum - 1
        if gross_profit < d.min_net_profit then none
        else
          some (post_init
            { arb_type := ArbitrageType.MULTI_OUTCOME_SHORT
              market_id := market_id
              market_title := market_title
              profit_per_dollar := gross_profit
              max_profit := if min_liquidity > 0 then gross_profit * min_liquidity
                            else gross_profit * 100
              confidence := min 1 (gross_profit / (1 / 10))
              risk_level := RiskLevel.RISK_FREE
              details := { outcomes := relevant_outcomes
                           yes_ask_sum := some yes_ask_sum
                           yes_bid_sum := some yes_bid_sum
                           num_outcomes := some relevant_outcomes.length
                           action := some "SELL YES on ALL outcomes @ bid"
                           min_liquidity := some min_liquidity }
              platform := d.platform
              spread_cost := spread_cost
              net_profit := 0 })
      else none

end ArbitrageDetector

/-- `calculate_kelly_fraction` (module-level function in src/arbitrage.py).
The Python default for kelly_fraction is 0.25. -/
def calculate_kelly_fraction (probability odds bankroll kelly_fraction : ℚ) : ℚ :=
  if probability ≤ 0 ∨ 1 ≤ probability then 0
  else
    let b := odds - 1
    let p := probability
    let q := 1 - p
    if b ≤ 0 then 0
    else
      let kelly := (b * p - q) / b
      if kelly ≤ 0 then 0
      else max 0 (kelly * kelly_fraction * bankroll)

/-- The dictionary `calculate_arb_position_size` returns: keys vary per
branch, so the leg allocations are optional. -/
structure PositionSize where
  total_size : ℚ
  yes_size : Option ℚ := none
  no_size : Option ℚ := none
  outcome_sizes : List (String × ℚ) := []
  method : String
deriving DecidableEq, Repr

/-- `calculate_arb_position_size` (module-level function in src/arbitrage.py).
The Python default for max_position_pct is 0.20. -/
def calculate_arb_position_size (opportunity : ArbitrageOpportunity)
    (bankroll : ℚ) (max_position_pct : ℚ) : PositionSize :=
  if ¬ opportunity.is_risk_free then
    let kelly_size := calculate_kelly_fraction opportunity.confidence
      (1 + opportunity.profit_per_dollar) bankroll (1 / 4)
    { total_size := min kelly_size (bankroll * max_position_pct)
      method := "kelly" }
  else
    let max_size := bankroll * max_position_pct
    let max_size :=
      if opportunity.max_profit > 0 then
        min max_size (opportunity.max_profit / opportunity.profit_per_dollar)
      else max_size
    let details := opportunity.details
    if opportunity.arb_type = ArbitrageType.SINGLE_CONDITION_LONG then
      let yes_ask := details.yes_ask.getD (1 / 2)
      let no_ask := details.no_ask.getD (1 / 2)
      let total_cost := yes_ask + no_ask
      { total_size := max_size
        yes_size := some (max_size * (yes_ask / total_cost))
        no_size := some (max_size * (no_ask / total_cost))
        method := "rebalancing_long" }
    else if opportunity.arb_type = ArbitrageType.MULTI_OUTCOME_LONG then
      let outcomes := details.outcomes
      let total_cost := details.yes_ask_sum.getD 1
      { total_size := max_size
        outcome_sizes := outcomes.map (fun o =>
          (o.name.getD "unknown",
           max_size * ((o.yes_ask.getD (o.yes_bid.getD 0)) / total_cost)))
        method := "multi_rebalancing_long" }
    else
      { total_size := max_size, method := "default" }

/-!
Risk manager (src/risk_manager.py).  `datetime.now()` is ambient state in the
Python; here the caller passes the current calendar day as an integer day
number (`today`), which is all the code inspects (`now.date()` comparisons).
The kill-switch reason is an f-string determined by the daily loss percentage
and the configured limit; we model it by the data that determines it.
-/

/-- The data content of the kill-switch reason message
"Daily loss limit exceeded: X% (limit: Y%)". -/
structure KillReason where
  daily_loss_pct : ℚ
  limit : ℚ
deriving DecidableEq, Repr

/-- The configuration constants of the config module that RiskManager reads.
Defaults are the values in src/config.example.py. -/
structure RiskConfig where
  MIN_POSITION_SIZE : ℚ := 1 / 200
  MAX_POSITION_SIZE : ℚ := 1 / 20
  MAX_POSITION_VALUE : ℚ := 1 / 5
  DAILY_LOSS_LIMIT : ℚ := 1 / 20
deriving DecidableEq, Repr

/-- The mutable state of a `RiskManager` instance. `daily_reset_day` is the
calendar day of `daily_reset_time` (the time-of-day part is zeroed by the
source and never read). -/
structure RiskState where
  starting_bankroll : ℚ
  daily_start_bankroll : ℚ
  daily_reset_day : ℤ
  kill_switch_active : Bool
  kill_switch_reason : Option KillReason
deriving DecidableEq, Repr

/-- `RiskManager.__init__(initial_bankroll)` on day `day0`. -/
def RiskState.init (initial_bankroll : ℚ) (day0 : ℤ) : RiskState :=
  { starting_bankroll := initial_bankroll
    daily_start_bankroll := initial_bankroll
    daily_reset_day := day0
    kill_switch_active := false
    kill_switch_reason := none }

/-- `RiskManager.activate_kill_switch(reason)` (the mirroring of the flag
into the config module's globals has no further reader in the core). -/
def activate_kill_switch (s : RiskState) (reason : KillReason) : RiskState :=
  { s with kill_switch_active := true, kill_switch_reason := some reason }

/-- `RiskManager.deactivate_kill_switch()`. -/
def deactivate_kill_switch (s : RiskState) : RiskState :=
  { s with kill_switch_active := false, kill_switch_reason := none }

/-- `RiskManager.check_kill_switch(current_bankroll)`, with the ambient
`datetime.now().date()` passed explicitly as `today`.  Returns the updated
state next to the Python return value `(should_halt, reason)`. -/
def check_kill_switch (cfg : RiskConfig) (s : RiskState) (today : ℤ)
    (current_bankroll : ℚ) : RiskState × Bool × Option KillReason :=
  if s.kill_switch_active then (s, true, s.kill_switch_reason)
  else
    let s1 :=
      if today > s.daily_reset_day then
        { s with daily_start_bankroll := current_bankroll
                 daily_reset_day := today }
      else s
    let daily_pnl := current_bankroll - s1.daily_start_bankroll
    let daily_loss_pct :=
      if daily_pnl < 0 then |daily_pnl / s1.daily_start_bankroll| else 0
    if daily_loss_pct > cfg.DAILY_LOSS_LIMIT then
      let reason : KillReason := ⟨daily_loss_pct, cfg.DAILY_LOSS_LIMIT⟩
      (activate_kill_switch s1 reason, true, some reason)
    else (s1, false, none)

/-- Runs `check_kill_switch` over a list of (day, bankroll) observations,
threading the state and collecting the returned (halt, reason) pairs. -/
def run_checks (cfg : RiskConfig) (s : RiskState) :
    List (ℤ × ℚ) → RiskState × List (Bool × Option KillReason)
  | [] => (s, [])
  | (t, cb) :: rest =>
    let r := check_kill_switch cfg s t cb
    let tail := run_checks cfg r.1 rest
    (tail.1, (r.2.1, r.2.2) :: tail.2)

/-- One element of the `open_positions` list: a dict read only through
`p.get("size", 0)`. -/
structure Position where
  size : Option ℚ := none
deriving DecidableEq, Repr

/-- The prior total exposure fraction computed by `validate_position_size`:
sum of position sizes over open positions, divided by bankroll. -/
def total_exposure_fraction (open_positions : List Position) (bankroll : ℚ) : ℚ :=
  (open_positions.map (fun p => p.size.getD 0)).sum / bankroll

/-- `RiskManager.validate_position_size(size, bankroll, open_positions)`.
Returns `(is_valid, adjusted_size, reason)`; reasons are the leading text of
the Python f-strings. -/
def validate_position_size (cfg : RiskConfig) (size bankroll : ℚ)
    (open_positions : List Position) : Bool × ℚ × String :=
  if size < cfg.MIN_POSITION_SIZE then
    (false, 0, "Position too small")
  else if size > cfg.MAX_POSITION_SIZE then
    (true, cfg.MAX_POSITION_SIZE, "Position capped")
  else
    let total_exposure := total_exposure_fraction open_positions bankroll
    let new_total := total_exposure + size
    if new_total > cfg.MAX_POSITION_VALUE then
      let remaining := max (cfg.MAX_POSITION_VALUE - total_exposure) 0
      if remaining < cfg.MIN_POSITION_SIZE then
        (false, 0, "Max total exposure reached")
      else (true, remaining, "Position reduced")
    else (true, size, "OK")

/-!
Concrete instances used by witnesses and counterexamples below.
-/

/-- The configuration with all defaults from src/config.example.py. -/
def default_config : RiskConfig := {}

/-- The opportunity returned by `check_single_condition` on the spec's
concrete scenario (yes 0.45/0.46, no 0.48/0.49, liquidity 10000) with the
default detector. -/
def opp_c4 : ArbitrageOpportunity :=
  { arb_type := ArbitrageType.SINGLE_CONDITION_LONG
    market_id := "M"
    market_title := "T"
    profit_per_dollar := 1 / 20
    max_profit := 500
    confidence := 1 / 2
    risk_level := RiskLevel.RISK_FREE
    details := { yes_bid := some (9 / 20), yes_ask := some (23 / 50)
                 no_bid := some (12 / 25), no_ask := some (49 / 100)
                 buy_cost := some (19 / 20)
                 liquidity := some 10000
                 action := some "BUY YES @ ask + BUY NO @ ask" }
    platform := "kalshi"
    spread_cost := 1 / 100
    net_profit := 1 / 25 }

/-- A two-outcome multi-market input whose legs both carry liquidity. -/
def c6_outcomes : List Outcome :=
  [ { name := some "A", yes_bid := some (9 / 20), yes_ask := some (23 / 50)
      liquidity := some 5000 },
    { name := some "B", yes_bid := some (12 / 25), yes_ask := some (49 / 100)
      liquidity := some 3000 } ]

/-- The opportunity returned by `check_multi_outcome` on `c6_outcomes` with
the default detector and probability threshold 0.02. -/
def opp_c6 : ArbitrageOpportunity :=
  { arb_type := ArbitrageType.MULTI_OUTCOME_LONG
    market_id := "M"
    market_title := "T"
    profit_per_dollar := 1 / 20
    max_profit := 150
    confidence := 1 / 2
    risk_level := RiskLevel.RISK_FREE
    details := { outcomes := c6_outcomes
                 yes_ask_sum := some (19 / 20)
                 yes_bid_sum := some (93 / 100)
                 num_outcomes := some 2
                 min_liquidity := some 3000
                 action := some "BUY YES on ALL outcomes @ ask" }
    platform := "kalshi"
    spread_cost := 1 / 100
    net_profit := 1 / 25 }

/-- A fresh risk manager started with bankroll 1000 on day 0. -/
def c8_state0 : RiskState := RiskState.init 1000 0

/-- The state after a day-0 check at bankroll 940 (6% loss, above the 5%
limit, so the kill switch activates). -/
def c8_state1 : RiskState := (check_kill_switch default_config c8_state0 0 940).1

/-!
Inversion lemmas: what is true of any opportunity the two detector entry
points return.  These are shared by several of the claim theorems below.
-/

/-- Any opportunity returned by `check_single_condition` is risk-free, has
gross profit at least the configured floor, carries the half-spread as
spread_cost, has net_profit recomputed from gross and spread, confidence
min(1, gross/0.10), liquidity-scaled max_profit, and a single-condition
type tag. -/
theorem check_single_condition_inv (d : ArbitrageDetector)
    (mid mt : String) (yes_bid no_bid : ℚ) (yes_ask_opt no_ask_opt : Option ℚ)
    (liquidity : ℚ) (opp : ArbitrageOpportunity)
    (h : d.check_single_condition mid mt yes_bid no_bid yes_ask_opt no_ask_opt
          liquidity = some opp) :
    opp.risk_level = RiskLevel.RISK_FREE ∧
    d.min_net_profit ≤ opp.profit_per_dollar ∧
    opp.spread_cost = ArbitrageDetector.calculate_spread_cost yes_bid
      (yes_ask_opt.getD yes_bid) no_bid (no_ask_opt.getD no_bid) ∧
    opp.net_profit = max 0 (opp.profit_per_dollar - opp.spread_cost) ∧
    opp.confidence = min 1 (opp.profit_per_dollar / (1 / 10)) ∧
    opp.max_profit = (if liquidity > 0 then opp.profit_per_dollar * liquidity
                      else opp.profit_per_dollar * 100) ∧
    (opp.arb_type = ArbitrageType.SINGLE_CONDITION_LONG ∨
     opp.arb_type = ArbitrageType.SINGLE_CONDITION_SHORT) := by
  simp only [ArbitrageDetector.check_single_condition] at h
  split_ifs at h <;>
    first
      | exact Option.noConfusion h
      | (obtain rfl := Option.some.inj h
         simp only [post_init]
         simp_all [not_lt]
         all_goals rw [if_neg (not_lt.mpr (by assumption))])

/-- Any opportunity returned by `check_multi_outcome` is risk-free, has
gross profit at least the configured floor, net_profit recomputed from gross
and spread, confidence min(1, gross/0.10), max_profit scaled by the minimum
liquidity over the kept outcomes (with the times-100 fallback when that
minimum is not positive), and a multi-outcome type tag. -/
theorem check_multi_outcome_inv (d : ArbitrageDetector)
    (mid mt : String) (outcomes : List Outcome) (mpt : ℚ)
    (opp : ArbitrageOpportunity)
    (h : d.check_multi_outcome mid mt outcomes mpt = some opp) :
    opp.risk_level = RiskLevel.RISK_FREE ∧
    d.min_net_profit ≤ opp.profit_per_dollar ∧
    opp.net_profit = max 0 (opp.profit_per_dollar - opp.spread_cost) ∧
    opp.confidence = min 1 (opp.profit_per_dollar / (1 / 10)) ∧
    opp.max_profit =
      (if list_min ((relevant_filter mpt outcomes).map
            (fun o => o.liquidity.getD 0)) 0 > 0 then
        opp.profit_per_dollar * list_min ((relevant_filter mpt outcomes).map
          (fun o => o.liquidity.getD 0)) 0
       else opp.profit_per_dollar * 100) ∧
    (opp.arb_type = ArbitrageType.MULTI_OUTCOME_LONG ∨
     opp.arb_type = ArbitrageType.MULTI_OUTCOME_SHORT) := by
  simp only [ArbitrageDetector.check_multi_outcome] at h
  split_ifs at h <;>
    first
      | exact Option.noConfusion h
      | (obtain rfl := Option.some.inj h
         simp only [post_init]
         simp_all [not_lt]
         all_goals rw [if_neg (not_lt.mpr (by assumption))])

/-!
Claim C1.
-/

/-- C1 is false as stated: `check_single_condition` can return an opportunity
whose stored net_profit field is below the configured min_net_profit, because
the floor is checked against gross profit while the field is recomputed as
max(0, gross - spread_cost).  With the default detector (min_net_profit =
0.005), quotes yes 0.40 bid / 0.46 ask and no 0.40 bid / 0.49 ask give a
returned opportunity (gross 0.05, spread_cost 0.075) with net_profit = 0. -/
theorem C1_counterexample :
    (default_detector.check_single_condition "M" "T" (2 / 5) (2 / 5)
        (some (23 / 50)) (some (49 / 100)) 10000).map
      ArbitrageOpportunity.net_profit = some 0 ∧
    ¬ default_detector.min_net_profit ≤ (0 : ℚ) := by
  constructor
  · norm_num [default_detector, ArbitrageDetector.check_single_condition,
      ArbitrageDetector.calculate_spread_cost, post_init]
  · norm_num [default_detector]

/-- C1 (amended): every opportunity returned by `check_single_condition` or
`check_multi_outcome` has gross profit_per_dollar at least the detector's
configured min_net_profit; the floor is enforced on gross profit, while the
stored net_profit field equals max(0, gross - spread_cost) and can drop
below the floor when spread_cost is positive. -/
theorem C1_profit_floor (d : ArbitrageDetector) (mid mt : String)
    (yes_bid no_bid : ℚ) (yes_ask_opt no_ask_opt : Option ℚ) (liquidity : ℚ)
    (outcomes : List Outcome) (mpt : ℚ) :
    (∀ opp, d.check_single_condition mid mt yes_bid no_bid yes_ask_opt
        no_ask_opt liquidity = some opp →
      d.min_net_profit ≤ opp.profit_per_dollar) ∧
    (∀ opp, d.check_multi_outcome mid mt outcomes mpt = some opp →
      d.min_net_profit ≤ opp.profit_per_dollar) :=
  ⟨fun opp h => (check_single_condition_inv d mid mt yes_bid no_bid
      yes_ask_opt no_ask_opt liquidity opp h).2.1,
   fun opp h => (check_multi_outcome_inv d mid mt outcomes mpt opp h).2.1⟩

/-- C1 witness: the gross-profit floor at the spec's concrete scenario. -/
theorem C1_profit_floor_witness :
    default_detector.min_net_profit ≤ opp_c4.profit_per_dollar :=
  (C1_profit_floor default_detector "M" "T" (9 / 20) (12 / 25)
      (some (23 / 50)) (some (49 / 100)) 10000 [] (1 / 50)).1 opp_c4
    (by norm_num [default_detector, ArbitrageDetector.check_single_condition,
      ArbitrageDetector.calculate_spread_cost, post_init, opp_c4])

/-!
Claim C2.
-/

/-- C2 is false as stated: when the proposed size exceeds MAX_POSITION_SIZE,
`validate_position_size` caps it and returns valid without checking the
total-exposure limit.  With the default config (max size 5 percent, max
exposure 20 percent), bankroll 1000, one open position of size 180 (18
percent) and a proposal of 10 percent, the call returns (valid, 5 percent)
although 18 + 5 = 23 percent exceeds the 20 percent exposure cap. -/
theorem C2_counterexample :
    validate_position_size default_config (1 / 10) 1000 [{ size := some 180 }] =
      (true, 1 / 20, "Position capped") ∧
    ¬ total_exposure_fraction [{ size := some 180 }] (1000 : ℚ) + 1 / 20 ≤
        default_config.MAX_POSITION_VALUE := by
  constructor
  · norm_num [default_config, validate_position_size, total_exposure_fraction]
  · norm_num [default_config, total_exposure_fraction]

/-- C2 (amended): the returned effective size never exceeds the configured
MAX_POSITION_SIZE; and whenever the call returns valid for a proposal that
does not exceed MAX_POSITION_SIZE (so the early cap branch is not taken),
the prior total exposure fraction plus the returned effective size does not
exceed MAX_POSITION_VALUE.  The cap branch itself returns valid without the
exposure check and can breach the exposure cap. -/
theorem C2_position_caps (cfg : RiskConfig) (size bankroll : ℚ)
    (open_positions : List Position)
    (hmin : 0 < cfg.MIN_POSITION_SIZE) (hmax : 0 ≤ cfg.MAX_POSITION_SIZE)
    (hb : 0 < bankroll) :
    (validate_position_size cfg size bankroll open_positions).2.1 ≤
      cfg.MAX_POSITION_SIZE ∧
    (size ≤ cfg.MAX_POSITION_SIZE →
      (validate_position_size cfg size bankroll open_positions).1 = true →
      total_exposure_fraction open_positions bankroll +
        (validate_position_size cfg size bankroll open_positions).2.1 ≤
          cfg.MAX_POSITION_VALUE) := by
  simp only [validate_position_size]
  split_ifs with h1 h2 h3 h4
  · exact ⟨hmax, fun _ hv => by simp at hv⟩
  · exact ⟨le_refl _, fun hs _ => absurd h2 (not_lt.2 hs)⟩
  · exact ⟨hmax, fun _ hv => by simp at hv⟩
  · constructor
    · exact max_le (by linarith [not_lt.1 h2]) hmax
    · intro hs hv
      dsimp only
      have hrem := not_lt.1 h4
      rcases le_total
          (cfg.MAX_POSITION_VALUE - total_exposure_fraction open_positions bankroll) 0
        with hle | hge
      · rw [max_eq_right hle] at hrem
        linarith
      · rw [max_eq_left hge]
        linarith
  · exact ⟨not_lt.1 h2, fun _ _ => by dsimp only; linarith [not_lt.1 h3]⟩

/-- C2 witness: an accepted in-range proposal (1 percent with 10 percent
prior exposure under the default config) respects both caps. -/
theorem C2_position_caps_witness :
    (validate_position_size default_config (1 / 100) 1000
        [{ size := some 100 }]).2.1 ≤ default_config.MAX_POSITION_SIZE ∧
    total_exposure_fraction [{ size := some 100 }] (1000 : ℚ) +
      (validate_position_size default_config (1 / 100) 1000
        [{ size := some 100 }]).2.1 ≤ default_config.MAX_POSITION_VALUE := by
  have h := C2_position_caps default_config (1 / 100) 1000 [{ size := some 100 }]
    (by norm_num [default_config]) (by norm_num [default_config]) (by norm_num)
  exact ⟨h.1, h.2 (by norm_num [default_config])
    (by norm_num [default_config, validate_position_size, total_exposure_fraction])⟩

/-!
Claim C3.
-/

/-- C3 is false as stated: with inverted quotes (ask below bid, which the
data model explicitly does not rule out), a returned opportunity can carry a
negative spread_cost.  With the default detector, yes 0.50 bid / 0.40 ask
and no 0.50 bid / 0.40 ask give buy_cost 0.80, a returned long opportunity,
and spread_cost = ((0.40-0.50)+(0.40-0.50))/2 = -0.10 < 0. -/
theorem C3_counterexample :
    (default_detector.check_single_condition "M" "T" (1 / 2) (1 / 2)
        (some (2 / 5)) (some (2 / 5)) 0).map
      ArbitrageOpportunity.spread_cost = some (-1 / 10) ∧
    ¬ (0 : ℚ) ≤ -1 / 10 := by
  constructor
  · norm_num [default_detector, ArbitrageDetector.check_single_condition,
      ArbitrageDetector.calculate_spread_cost, post_init]
  · norm_num

/-- C3 (amended): whenever each (defaulted) ask is at least the
corresponding bid, every opportunity returned by `check_single_condition`
has non-negative spread_cost; and unconditionally, construction recomputes
net_profit = max(0, profit_per_dollar - spread_cost), regardless of the
net_profit value passed in. -/
theorem C3_spread_and_net (d : ArbitrageDetector) (mid mt : String)
    (yes_bid no_bid : ℚ) (yes_ask_opt no_ask_opt : Option ℚ) (liquidity : ℚ)
    (h1 : yes_bid ≤ yes_ask_opt.getD yes_bid)
    (h2 : no_bid ≤ no_ask_opt.getD no_bid) :
    (∀ opp, d.check_single_condition mid mt yes_bid no_bid yes_ask_opt
        no_ask_opt liquidity = some opp → 0 ≤ opp.spread_cost) ∧
    (∀ o : ArbitrageOpportunity,
      (post_init o).net_profit = max 0 (o.profit_per_dollar - o.spread_cost)) := by
  constructor
  · intro opp h
    have hsc := (check_single_condition_inv d mid mt yes_bid no_bid yes_ask_opt
      no_ask_opt liquidity opp h).2.2.1
    rw [hsc]
    unfold ArbitrageDetector.calculate_spread_cost
    linarith
  · intro o
    rfl

/-- C3 witness: non-negative spread and recomputed net profit at the spec's
concrete scenario. -/
theorem C3_spread_and_net_witness :
    0 ≤ opp_c4.spread_cost ∧
    (post_init opp_c4).net_profit =
      max 0 (opp_c4.profit_per_dollar - opp_c4.spread_cost) :=
  ⟨(C3_spread_and_net default_detector "M" "T" (9 / 20) (12 / 25)
      (some (23 / 50)) (some (49 / 100)) 10000 (by norm_num) (by norm_num)).1
      opp_c4
      (by norm_num [default_detector, ArbitrageDetector.check_single_condition,
        ArbitrageDetector.calculate_spread_cost, post_init, opp_c4]),
   (C3_spread_and_net default_detector "M" "T" (9 / 20) (12 / 25)
      (some (23 / 50)) (some (49 / 100)) 10000 (by norm_num) (by norm_num)).2
      opp_c4⟩

/-!
Claim C4.
-/

/-- C4: when the (defaulted) ask sum is below 1 - min_profit_threshold and
the gross 1 - ask-sum clears min_net_profit, `check_single_condition`
returns a SINGLE_CONDITION_LONG, RISK_FREE opportunity with
profit_per_dollar = gross, confidence = min(1, gross/0.10), and
max_profit = gross * liquidity when liquidity > 0 (else gross * 100); on
the spec's concrete quotes the gross is 0.05 and max_profit is 500. -/
theorem C4_long_rule (d : ArbitrageDetector) (mid mt : String)
    (yes_bid no_bid : ℚ) (yes_ask_opt no_ask_opt : Option ℚ) (liquidity : ℚ)
    (hbuy : yes_ask_opt.getD yes_bid + no_ask_opt.getD no_bid <
      1 - d.min_profit_threshold)
    (hnet : d.min_net_profit ≤
      1 - (yes_ask_opt.getD yes_bid + no_ask_opt.getD no_bid)) :
    (d.check_single_condition mid mt yes_bid no_bid yes_ask_opt no_ask_opt
        liquidity).map (fun o =>
        (o.arb_type, o.risk_level, o.profit_per_dollar, o.confidence,
         o.max_profit)) =
      some (ArbitrageType.SINGLE_CONDITION_LONG, RiskLevel.RISK_FREE,
        1 - (yes_ask_opt.getD yes_bid + no_ask_opt.getD no_bid),
        min 1 ((1 - (yes_ask_opt.getD yes_bid + no_ask_opt.getD no_bid)) /
          (1 / 10)),
        if liquidity > 0 then
          (1 - (yes_ask_opt.getD yes_bid + no_ask_opt.getD no_bid)) * liquidity
        else
          (1 - (yes_ask_opt.getD yes_bid + no_ask_opt.getD no_bid)) * 100) ∧
    (default_detector.check_single_condition "M" "T" (9 / 20) (12 / 25)
        (some (23 / 50)) (some (49 / 100)) 10000).map
      (fun o => (o.profit_per_dollar, o.max_profit)) = some (1 / 20, 500) := by
  constructor
  · simp only [ArbitrageDetector.check_single_condition]
    rw [if_pos hbuy, if_neg (not_lt.2 hnet)]
    simp [post_init]
  · norm_num [default_detector, ArbitrageDetector.check_single_condition,
      ArbitrageDetector.calculate_spread_cost, post_init]

/-- C4 witness: the LONG rule evaluated at the spec's concrete scenario. -/
theorem C4_long_rule_witness :
    (default_detector.check_single_condition "M" "T" (9 / 20) (12 / 25)
        (some (23 / 50)) (some (49 / 100)) 10000).map (fun o =>
        (o.arb_type, o.risk_level, o.profit_per_dollar, o.confidence,
         o.max_profit)) =
      some (ArbitrageType.SINGLE_CONDITION_LONG, RiskLevel.RISK_FREE,
        1 / 20, 1 / 2, 500) := by
  have h := (C4_long_rule default_detector "M" "T" (9 / 20) (12 / 25)
    (some (23 / 50)) (some (49 / 100)) 10000
    (by norm_num [default_detector]) (by norm_num [default_detector])).1
  norm_num [min_def] at h
  convert h using 2
  norm_num

/-!
Claim C5.
-/

/-- C5: `calculate_kelly_fraction` is non-negative on probabilities in
(0,1) with odds above 1 and non-negative bankroll and fraction, and it
returns exactly 0 when the probability is outside (0,1), the odds are at
most 1, or the Kelly edge (odds-1)p - (1-p) is non-positive. -/
theorem C5_kelly (probability odds bankroll kelly_fraction : ℚ) :
    (0 < probability → probability < 1 → 1 < odds → 0 ≤ bankroll →
      0 ≤ kelly_fraction →
      0 ≤ calculate_kelly_fraction probability odds bankroll kelly_fraction) ∧
    ((probability ≤ 0 ∨ 1 ≤ probability ∨ odds ≤ 1 ∨
        (odds - 1) * probability - (1 - probability) ≤ 0) →
      calculate_kelly_fraction probability odds bankroll kelly_fraction = 0) := by
  constructor
  · intro _ _ _ _ _
    simp only [calculate_kelly_fraction]
    split_ifs <;> simp
  · intro hcase
    simp only [calculate_kelly_fraction]
    split_ifs with hp hb hk
    · rfl
    · rfl
    · rfl
    · exfalso
      rcases hcase with h | h | h | h
      · exact hp (Or.inl h)
      · exact hp (Or.inr h)
      · exact hb (by linarith)
      · exact hk (div_nonpos_iff.mpr
          (Or.inr ⟨h, le_of_lt (lt_of_not_le hb)⟩))

/-- C5 witness: a positive-edge case (p = 0.6, odds 2) is non-negative and a
degenerate-odds case (odds 1) returns 0. -/
theorem C5_kelly_witness :
    0 ≤ calculate_kelly_fraction (3 / 5) 2 1000 (1 / 4) ∧
    calculate_kelly_fraction (3 / 5) 1 1000 (1 / 4) = 0 :=
  ⟨(C5_kelly (3 / 5) 2 1000 (1 / 4)).1 (by norm_num) (by norm_num)
      (by norm_num) (by norm_num) (by norm_num),
   (C5_kelly (3 / 5) 1 1000 (1 / 4)).2 (Or.inr (Or.inr (Or.inl le_rfl)))⟩

/-!
Claim C6.
-/

/-- C6 is false as stated: when the minimum liquidity across the kept
outcomes is 0 (an outcome with no liquidity entry), `check_multi_outcome`
falls back to max_profit = gross * 100, which exceeds gross * min-liquidity
= 0.  Two kept outcomes with asks 0.46 and 0.49 and no liquidity give a
returned opportunity with gross 0.05 and max_profit 5 > 0. -/
theorem C6_counterexample :
    (default_detector.check_multi_outcome "M" "T"
        [{ yes_bid := some (9 / 20), yes_ask := some (23 / 50) },
         { yes_bid := some (12 / 25), yes_ask := some (49 / 100) }]
        (1 / 50)).map
      (fun o => (o.profit_per_dollar, o.max_profit)) = some (1 / 20, 5) ∧
    list_min ((relevant_filter (1 / 50)
        [{ yes_bid := some (9 / 20), yes_ask := some (23 / 50) },
         { yes_bid := some (12 / 25), yes_ask := some (49 / 100) }]).map
      (fun o => o.liquidity.getD 0)) 0 = 0 ∧
    ¬ (5 : ℚ) ≤ (1 / 20) * 0 := by
  refine ⟨?_, ?_, by norm_num⟩
  · norm_num [default_detector, ArbitrageDetector.check_multi_outcome,
      relevant_filter, list_min, post_init, List.filter]
  · norm_num [relevant_filter, list_min, List.filter]

/-- C6 (amended): whenever the minimum liquidity across the kept outcomes
is positive, the returned opportunity's max_profit equals (hence never
exceeds) its gross profit_per_dollar times that minimum liquidity; when the
minimum is not positive the code uses gross * 100 instead. -/
theorem C6_liquidity_binding (d : ArbitrageDetector) (mid mt : String)
    (outcomes : List Outcome) (mpt : ℚ) (opp : ArbitrageOpportunity)
    (h : d.check_multi_outcome mid mt outcomes mpt = some opp)
    (hl : 0 < list_min ((relevant_filter mpt outcomes).map
      (fun o => o.liquidity.getD 0)) 0) :
    opp.max_profit = opp.profit_per_dollar *
      list_min ((relevant_filter mpt outcomes).map
        (fun o => o.liquidity.getD 0)) 0 := by
  have hm := (check_multi_outcome_inv d mid mt outcomes mpt opp h).2.2.2.2.1
  rwa [if_pos hl] at hm

/-- C6 witness: the liquidity binding on a two-outcome market whose legs
carry liquidity 5000 and 3000. -/
theorem C6_liquidity_binding_witness :
    opp_c6.max_profit = opp_c6.profit_per_dollar *
      list_min ((relevant_filter (1 / 50) c6_outcomes).map
        (fun o => o.liquidity.getD 0)) 0 :=
  C6_liquidity_binding default_detector "M" "T" c6_outcomes (1 / 50) opp_c6
    (by norm_num [default_detector, ArbitrageDetector.check_multi_outcome,
      relevant_filter, list_min, post_init, List.filter, c6_outcomes, opp_c6])
    (by norm_num [relevant_filter, list_min, List.filter, c6_outcomes])

/-!
Claim C7.
-/

/-- Helper: whenever `check_kill_switch` halts, the post-state has the
switch active and stores exactly the returned reason. -/
theorem check_kill_switch_halt_state (cfg : RiskConfig) (s : RiskState)
    (today : ℤ) (cb : ℚ) (s' : RiskState) (r : Option KillReason)
    (h : check_kill_switch cfg s today cb = (s', true, r)) :
    s'.kill_switch_active = true ∧ s'.kill_switch_reason = r := by
  simp only [check_kill_switch] at h
  split_ifs at h with hact <;>
    (simp only [Prod.mk.injEq] at h
     obtain ⟨hs, hb, hr⟩ := h
     subst hs
     subst hr
     simp_all [activate_kill_switch])

/-- Helper: while the switch is active, a check returns the stored reason
and leaves the state unchanged. -/
theorem check_kill_switch_of_active (cfg : RiskConfig) (s : RiskState)
    (today : ℤ) (cb : ℚ) (hact : s.kill_switch_active = true) :
    check_kill_switch cfg s today cb = (s, true, s.kill_switch_reason) := by
  simp [check_kill_switch, hact]

/-- C7: once a `check_kill_switch` call halts (equivalently, once the kill
switch has been activated), every subsequent check returns (true, that same
reason) for any day and any current bankroll, including a recovered one, and
leaves the state untouched, until a manual deactivation. -/
theorem C7_kill_switch_latch (cfg : RiskConfig) (s : RiskState) (today : ℤ)
    (current_bankroll : ℚ) (s' : RiskState) (r : Option KillReason)
    (h : check_kill_switch cfg s today current_bankroll = (s', true, r))
    (inputs : List (ℤ × ℚ)) :
    run_checks cfg s' inputs = (s', inputs.map (fun _ => (true, r))) := by
  obtain ⟨hact, hr⟩ :=
    check_kill_switch_halt_state cfg s today current_bankroll s' r h
  subst hr
  induction inputs with
  | nil => rfl
  | cons head tail ih =>
    obtain ⟨t, cb⟩ := head
    simp only [run_checks, List.map]
    rw [check_kill_switch_of_active cfg s' t cb hact]
    simp [ih]

/-- C7 witness: after the day-0 loss activates the switch, a day-1 check at
a fully recovered bankroll of 2000 still halts with the stored reason. -/
theorem C7_kill_switch_latch_witness :
    run_checks default_config c8_state1 [(1, 2000)] =
      (c8_state1, [(true, some ⟨3 / 50, 1 / 20⟩)]) :=
  C7_kill_switch_latch default_config c8_state0 0 940 c8_state1
    (some ⟨3 / 50, 1 / 20⟩)
    (by norm_num [c8_state0, c8_state1, RiskState.init, default_config,
      check_kill_switch, activate_kill_switch, abs_of_pos])
    [(1, 2000)]

/-!
Claim C8.
-/

/-- C8 is false as stated: the active kill switch short-circuits before the
daily reset, so the first check after midnight does not reset
daily_start_bankroll.  Concretely: day-0 check at bankroll 940 (6 percent
loss) activates the switch; the first day-1 check at bankroll 940 leaves
daily_start_bankroll at 1000 (not the current 940) and the day boundary at
day 0. -/
theorem C8_counterexample :
    c8_state1.kill_switch_active = true ∧
    (check_kill_switch default_config c8_state1 1 940).1.daily_start_bankroll
      = 1000 ∧
    (check_kill_switch default_config c8_state1 1 940).1.daily_reset_day = 0 ∧
    (940 : ℚ) ≠ 1000 := by
  refine ⟨?_, ?_, ?_, by norm_num⟩ <;>
    norm_num [c8_state1, c8_state0, RiskState.init, default_config,
      check_kill_switch, activate_kill_switch, abs_of_pos]

/-- C8 (amended): while the kill switch is inactive, the first check of a
new calendar day resets daily_start_bankroll to the bankroll passed in and
moves the day boundary to that day, and any same-day check leaves both
unchanged; while the switch is active, the check leaves the whole state
unchanged (so no reset happens until a manual deactivation). -/
theorem C8_daily_reset (cfg : RiskConfig) (s : RiskState) (today : ℤ)
    (cb : ℚ) :
    (s.kill_switch_active = false → s.daily_reset_day < today →
      ((check_kill_switch cfg s today cb).1.daily_start_bankroll = cb ∧
       (check_kill_switch cfg s today cb).1.daily_reset_day = today)) ∧
    (s.kill_switch_active = false → ¬ s.daily_reset_day < today →
      ((check_kill_switch cfg s today cb).1.daily_start_bankroll =
          s.daily_start_bankroll ∧
       (check_kill_switch cfg s today cb).1.daily_reset_day =
          s.daily_reset_day)) ∧
    (s.kill_switch_active = true →
      (check_kill_switch cfg s today cb).1 = s) := by
  refine ⟨?_, ?_, ?_⟩
  · intro hact hday
    simp only [check_kill_switch, hact]
    norm_num [hday]
    split_ifs <;> simp [activate_kill_switch]
  · intro hact hday
    simp only [check_kill_switch, hact]
    norm_num [hday]
    split_ifs <;> simp [activate_kill_switch]
  · intro hact
    simp [check_kill_switch, hact]

/-- C8 witness: a fresh day-0 manager checked on day 1 with bankroll 950
resets the daily start to 950 and the boundary to day 1. -/
theorem C8_daily_reset_witness :
    (check_kill_switch default_config (RiskState.init 1000 0) 1
      950).1.daily_start_bankroll = 950 ∧
    (check_kill_switch default_config (RiskState.init 1000 0) 1
      950).1.daily_reset_day = 1 :=
  (C8_daily_reset default_config (RiskState.init 1000 0) 1 950).1 rfl
    (by norm_num [RiskState.init])

/-!
Claim C9.
-/

/-- C9: for a RISK_FREE SINGLE_CONDITION_LONG opportunity whose details
carry the two ask prices, `calculate_arb_position_size` returns total_size
= min(bankroll * max_position_pct, max_profit / profit_per_dollar) when
max_profit > 0 (just bankroll * max_position_pct otherwise), and splits it
into yes and no legs by ask-price weight. -/
theorem C9_arb_sizing (opp : ArbitrageOpportunity)
    (bankroll max_position_pct ya na : ℚ)
    (hr : opp.risk_level = RiskLevel.RISK_FREE)
    (ht : opp.arb_type = ArbitrageType.SINGLE_CONDITION_LONG)
    (hy : opp.details.yes_ask = some ya) (hn : opp.details.no_ask = some na) :
    (0 < opp.max_profit →
      (calculate_arb_position_size opp bankroll max_position_pct).total_size =
        min (bankroll * max_position_pct)
          (opp.max_profit / opp.profit_per_dollar)) ∧
    (¬ 0 < opp.max_profit →
      (calculate_arb_position_size opp bankroll max_position_pct).total_size =
        bankroll * max_position_pct) ∧
    (calculate_arb_position_size opp bankroll max_position_pct).yes_size =
      some ((calculate_arb_position_size opp bankroll
        max_position_pct).total_size * (ya / (ya + na))) ∧
    (calculate_arb_position_size opp bankroll max_position_pct).no_size =
      some ((calculate_arb_position_size opp bankroll
        max_position_pct).total_size * (na / (ya + na))) ∧
    (calculate_arb_position_size opp bankroll max_position_pct).method =
      "rebalancing_long" := by
  have hb : opp.is_risk_free = true := by
    simp [ArbitrageOpportunity.is_risk_free, hr]
  have key : calculate_arb_position_size opp bankroll max_position_pct =
      { total_size :=
          if opp.max_profit > 0 then
            min (bankroll * max_position_pct)
              (opp.max_profit / opp.profit_per_dollar)
          else bankroll * max_position_pct
        yes_size := some ((if opp.max_profit > 0 then
            min (bankroll * max_position_pct)
              (opp.max_profit / opp.profit_per_dollar)
          else bankroll * max_position_pct) * (ya / (ya + na)))
        no_size := some ((if opp.max_profit > 0 then
            min (bankroll * max_position_pct)
              (opp.max_profit / opp.profit_per_dollar)
          else bankroll * max_position_pct) * (na / (ya + na)))
        outcome_sizes := []
        method := "rebalancing_long" } := by
    simp only [calculate_arb_position_size, hb, ht, hy, hn, Option.getD_some]
    simp
  rw [key]
  refine ⟨fun hmp => ?_, fun hmp => ?_, rfl, rfl, rfl⟩
  · dsimp only
    rw [if_pos hmp]
  · dsimp only
    rw [if_neg hmp]

/-- C9 witness: sizing the spec's concrete single-long opportunity against
a 5000 bankroll at the default 20 percent cap. -/
theorem C9_arb_sizing_witness :
    (calculate_arb_position_size opp_c4 5000 (1 / 5)).total_size =
      min (5000 * (1 / 5)) (opp_c4.max_profit / opp_c4.profit_per_dollar) ∧
    (calculate_arb_position_size opp_c4 5000 (1 / 5)).yes_size =
      some ((calculate_arb_position_size opp_c4 5000 (1 / 5)).total_size *
        ((23 / 50) / ((23 / 50) + (49 / 100)))) := by
  have h := C9_arb_sizing opp_c4 5000 (1 / 5) (23 / 50) (49 / 100)
    rfl rfl rfl rfl
  exact ⟨h.1 (by norm_num [opp_c4]), h.2.2.1⟩

/-!
Claim C10.
-/

/-- Helper: risk-free opportunities are never sized through the Kelly
branch of `calculate_arb_position_size`. -/
theorem risk_free_not_kelly (opp : ArbitrageOpportunity)
    (hr : opp.risk_level = RiskLevel.RISK_FREE) (bankroll mpp : ℚ) :
    (calculate_arb_position_size opp bankroll mpp).method ≠ "kelly" := by
  have hb : opp.is_risk_free = true := by
    simp [ArbitrageOpportunity.is_risk_free, hr]
  simp only [calculate_arb_position_size, hb]
  split_ifs <;> simp_all

/-- C10: every opportunity either detector entry point returns is
RISK_FREE with one of the four rebalancing type tags, and when the
configured min_net_profit is non-negative its confidence lies in [0,1];
consequently the sizer's risk-free branch, never the Kelly branch, handles
detector output. -/
theorem C10_detector_output (d : ArbitrageDetector) (mid mt : String)
    (yes_bid no_bid : ℚ) (yes_ask_opt no_ask_opt : Option ℚ) (liquidity : ℚ)
    (outcomes : List Outcome) (mpt : ℚ) (hmn : 0 ≤ d.min_net_profit) :
    (∀ opp, d.check_single_condition mid mt yes_bid no_bid yes_ask_opt
        no_ask_opt liquidity = some opp →
      opp.risk_level = RiskLevel.RISK_FREE ∧
      (opp.arb_type = ArbitrageType.SINGLE_CONDITION_LONG ∨
       opp.arb_type = ArbitrageType.SINGLE_CONDITION_SHORT ∨
       opp.arb_type = ArbitrageType.MULTI_OUTCOME_LONG ∨
       opp.arb_type = ArbitrageType.MULTI_OUTCOME_SHORT) ∧
      0 ≤ opp.confidence ∧ opp.confidence ≤ 1 ∧
      ∀ bankroll mpp,
        (calculate_arb_position_size opp bankroll mpp).method ≠ "kelly") ∧
    (∀ opp, d.check_multi_outcome mid mt outcomes mpt = some opp →
      opp.risk_level = RiskLevel.RISK_FREE ∧
      (opp.arb_type = ArbitrageType.SINGLE_CONDITION_LONG ∨
       opp.arb_type = ArbitrageType.SINGLE_CONDITION_SHORT ∨
       opp.arb_type = ArbitrageType.MULTI_OUTCOME_LONG ∨
       opp.arb_type = ArbitrageType.MULTI_OUTCOME_SHORT) ∧
      0 ≤ opp.confidence ∧ opp.confidence ≤ 1 ∧
      ∀ bankroll mpp,
        (calculate_arb_position_size opp bankroll mpp).method ≠ "kelly") := by
  constructor
  · intro opp h
    obtain ⟨hrisk, hfloor, -, -, hconf, -, htype⟩ :=
      check_single_condition_inv d mid mt yes_bid no_bid yes_ask_opt
        no_ask_opt liquidity opp h
    have hppd : 0 ≤ opp.profit_per_dollar := le_trans hmn hfloor
    refine ⟨hrisk, ?_, ?_, ?_,
      fun bankroll mpp => risk_free_not_kelly opp hrisk bankroll mpp⟩
    · rcases htype with h1 | h1
      · exact Or.inl h1
      · exact Or.inr (Or.inl h1)
    · rw [hconf]
      exact le_min (by norm_num) (div_nonneg hppd (by norm_num))
    · rw [hconf]
      exact min_le_left _ _
  · intro opp h
    obtain ⟨hrisk, hfloor, -, hconf, -, htype⟩ :=
      check_multi_outcome_inv d mid mt outcomes mpt opp h
    have hppd : 0 ≤ opp.profit_per_dollar := le_trans hmn hfloor
    refine ⟨hrisk, ?_, ?_, ?_,
      fun bankroll mpp => risk_free_not_kelly opp hrisk bankroll mpp⟩
    · rcases htype with h1 | h1
      · exact Or.inr (Or.inr (Or.inl h1))
      · exact Or.inr (Or.inr (Or.inr h1))
    · rw [hconf]
      exact le_min (by norm_num) (div_nonneg hppd (by norm_num))
    · rw [hconf]
      exact min_le_left _ _

/-- C10 witness: the invariants instantiated at the spec's concrete
single-condition scenario. -/
theorem C10_detector_output_witness :
    opp_c4.risk_level = RiskLevel.RISK_FREE ∧
    0 ≤ opp_c4.confidence ∧ opp_c4.confidence ≤ 1 := by
  have h := (C10_detector_output default_detector "M" "T" (9 / 20) (12 / 25)
    (some (23 / 50)) (some (49 / 100)) 10000 [] (1 / 50)
    (by norm_num [default_detector])).1 opp_c4
    (by norm_num [default_detector, ArbitrageDetector.check_single_condition,
      ArbitrageDetector.calculate_spread_cost, post_init, opp_c4])
  exact ⟨h.1, h.2.2.1, h.2.2.2.1⟩
